import Mathlib

/-!
Shallow embedding of `src/GPS.py` (SIM7600G GPS reader) and verification of
its specification.

Modelling conventions:
* The Python `bytes` and `str` values that occur here are ASCII text; both
  are modelled as Lean `String`.  The Python 3 distinction between the two
  types matters only for cross-type `==` comparisons, captured by
  `pyBytesEqStr` below.
* Python floats are modelled as rationals: every numeric literal the modem
  grammar produces is an exact decimal, and the arithmetic performed on
  them (`+`, `/ 60`, negation) is exact on these inputs.
* Functions that can raise an exception return `Except` or `Option`.
* `datetime.timestamp()` on a naive datetime consults the host local
  timezone; that ambient input is passed explicitly as the UTC offset `tz`
  (in seconds, east of Greenwich positive).
-/

/-! ## AT command vocabulary (`GPS.py` lines 13-19) -/

def GPS_STANDALONE : String := "AT+CGPS=1,1"

def GPS_STOP : String := "AT+CGPS=0"

def GPS_INFO : String := "AT+CGPSINFO"

/-! ## Python primitives -/

-- Equality between an `Except` result and an expected value is used
-- throughout the development to evaluate the parser on concrete transcripts.
deriving instance DecidableEq for Except

/-- Python 3 `==` between a `bytes` value and a `str` value: operands of
these two distinct, non-coercible types never compare equal, so the result
is always `False` (e.g. `b'S' == 'S'` is `False`).  This transcribes the
tests `ns == 'S'` and `ew == 'W'` in `parse_gpsinfo_line` (`GPS.py` lines
47 and 49), where `ns`/`ew` come from `line.split(b',')` and are `bytes`
while `'S'`/`'W'` are `str` literals. -/
def pyBytesEqStr (_bytesVal : List Char) (_strVal : String) : Bool := false

/-- Numeric value of a digit string, most significant digit first. -/
def digitsToNat (l : List Char) : Nat :=
  l.foldl (fun a c => a * 10 + (c.toNat - 48)) 0

def allDigits (l : List Char) : Bool := l.all Char.isDigit

/-- Python `split` on a one-character separator: `''.split(sep)` is `['']`,
and every separator occurrence starts a new (possibly empty) piece. -/
def splitOnChar (sep : Char) : List Char → List (List Char)
  | [] => [[]]
  | c :: rest =>
      if c = sep then [] :: splitOnChar sep rest
      else
        match splitOnChar sep rest with
        | [] => [[c]]
        | h :: t => (c :: h) :: t

/-- Python `float()` restricted to the unsigned decimal literals the modem
grammar produces (`DD`, `MM.MMMMMM`, `12.3`, `0.5`, ...): digit runs with
at most one decimal point and at least one digit.  `float(b'')` and other
malformed inputs raise `ValueError` in Python; here they give `none`. -/
def pyFloat (s : List Char) : Option ℚ :=
  match splitOnChar '.' s with
  | [a] =>
      if a.length ≠ 0 ∧ allDigits a then
        some (digitsToNat a)
      else none
  | [a, b] =>
      if a.length + b.length ≠ 0 ∧ allDigits a ∧ allDigits b then
        some ((digitsToNat a : ℚ) + (digitsToNat b : ℚ) / 10 ^ b.length)
      else none
  | _ => none

/-- Helper for `splitLines`: accumulates the current line (reversed). -/
def splitLinesAux : List Char → List Char → List String
  | [], acc => if acc.isEmpty then [] else [String.mk acc.reverse]
  | '\r' :: '\n' :: rest, acc => String.mk acc.reverse :: splitLinesAux rest []
  | '\r' :: rest, acc => String.mk acc.reverse :: splitLinesAux rest []
  | '\n' :: rest, acc => String.mk acc.reverse :: splitLinesAux rest []
  | c :: rest, acc => splitLinesAux rest (c :: acc)

/-- Python `bytes.splitlines()` on the line terminators a serial modem
emits: splits at `\r\n`, `\r` or `\n`, yielding no empty string after a
final line break. -/
def splitLines (s : String) : List String := splitLinesAux s.data []

/-- Helper for `strContains`. -/
def containsAux (needle : List Char) : List Char → Bool
  | [] => needle.isEmpty
  | c :: rest => List.isPrefixOf needle (c :: rest) || containsAux needle rest

/-- Python `in` on bytes: substring containment of `needle` in `hay`. -/
def strContains (hay needle : String) : Bool := containsAux needle.data hay.data

/-! ## Calendar arithmetic for `datetime.timestamp()` -/

/-- Days from 1970-01-01 to the Gregorian date `year-month-day` (the civil
days-from-epoch formula, applied to the years reachable from a two-digit
year, all ≥ 1969 hence positive). -/
def daysFromCivil (y m d : Nat) : Int :=
  let yAdj := if m ≤ 2 then y - 1 else y
  let era := yAdj / 400
  let yoe := yAdj % 400
  let mp := (m + 9) % 12
  let doy := (153 * mp + 2) / 5 + (d - 1)
  let doe := yoe * 365 + yoe / 4 - yoe / 100 + doy
  (era * 146097 + doe : Int) - 719468

def isLeapYear (y : Nat) : Bool :=
  y % 4 == 0 && (y % 100 != 0 || y % 400 == 0)

def daysInMonth (y m : Nat) : Nat :=
  if m = 2 then (if isLeapYear y then 29 else 28)
  else if m = 4 ∨ m = 6 ∨ m = 9 ∨ m = 11 then 30
  else 31

/-- `datetime.strptime(f"{date} {utctime}", "%d%m%y %H%M%S.%f")` on the
fixed-width fields of the modem grammar, returned as the broken-down
wall-clock value in seconds since the epoch of that wall time: the date
must be six digits `DDMMYY`, the time six digits `HHMMSS` then a dot and
one to six fractional digits (the `%f` directive); `%y` expands `00`-`68`
to `20YY` and `69`-`99` to `19YY` (CPython's rule), and the component
ranges are those `datetime` accepts (month 1-12, day valid for the month,
hour ≤ 23, minute ≤ 59, second ≤ 59).  `none` models the `ValueError`
raised on any malformed or out-of-range component. -/
def strptimeWall (date utctime : List Char) : Option ℚ :=
  match date, splitOnChar '.' utctime with
  | [d1, d2, mo1, mo2, y1, y2], [hms, frac] =>
    match hms with
    | [h1, h2, mi1, mi2, s1, s2] =>
      if allDigits [d1, d2, mo1, mo2, y1, y2] ∧ allDigits hms ∧
          allDigits frac ∧ 1 ≤ frac.length ∧ frac.length ≤ 6 then
        let day := digitsToNat [d1, d2]
        let month := digitsToNat [mo1, mo2]
        let yy := digitsToNat [y1, y2]
        let year := if yy ≤ 68 then 2000 + yy else 1900 + yy
        let hour := digitsToNat [h1, h2]
        let minute := digitsToNat [mi1, mi2]
        let second := digitsToNat [s1, s2]
        if 1 ≤ month ∧ month ≤ 12 ∧ 1 ≤ day ∧ day ≤ daysInMonth year month ∧
            hour ≤ 23 ∧ minute ≤ 59 ∧ second ≤ 59 then
          some ((daysFromCivil year month day : ℚ) * 86400 + hour * 3600 +
            minute * 60 + second + (digitsToNat frac : ℚ) / 10 ^ frac.length)
        else none
      else none
    | _ => none
  | _, _ => none

/-- `dt.datetime.strptime(datestring, "%d%m%y %H%M%S.%f").timestamp()`
(`GPS.py` line 52).  CPython's `timestamp()` interprets a naive datetime in
the host's local timezone, so the epoch seconds it returns are the
wall-clock seconds minus the host UTC offset `tz`. -/
def pyTimestamp (date utctime : List Char) (tz : ℚ) : Option ℚ :=
  (strptimeWall date utctime).map (fun w => w - tz)

/-! ## Response parser (`GPS.py` lines 30-59) -/

/-- Parse failure taxonomy; each constructor corresponds to one family of
`ValueError` raise sites in `GPS.py`: the framing check (line 34), the
missing data line (line 39), tuple unpacking of the comma split (line 43),
and `float`/`strptime` on a malformed field (lines 45-58). -/
inductive ParseError where
  | badFraming
  | missingData
  | fieldCountMismatch
  | malformedField
deriving DecidableEq, Repr

/-- The `GPSInfo` named tuple (`GPS.py` lines 22-27). -/
structure GPSInfo where
  lat : ℚ
  lng : ℚ
  timestamp : ℚ
  alt : ℚ
  speed : ℚ
deriving DecidableEq, Repr

/-- `parse_gpsinfo_line` (`GPS.py` lines 42-59).  The nine comma-separated
fields are unpacked (a count mismatch raises `ValueError`); latitude is
`float(lat[:2]) + float(lat[2:]) / 60`, longitude is
`float(lng[:3]) + float(lng[3:]) / 60`; the hemisphere tests `ns == 'S'`
and `ew == 'W'` are bytes-versus-str comparisons (see `pyBytesEqStr`); the
timestamp is `strptime(...).timestamp()` under host UTC offset `tz`;
`alt` and `speed` parse as plain floats; `course` is unused. -/
def parse_gpsinfo_line (line : String) (tz : ℚ) : Except ParseError GPSInfo :=
  match splitOnChar ',' line.data with
  | [lat, ns, lng, ew, date, utctime, alt, speed, _course] =>
    match pyFloat (lat.take 2), pyFloat (lat.drop 2),
        pyFloat (lng.take 3), pyFloat (lng.drop 3) with
    | some latDeg, some latMin, some lngDeg, some lngMin =>
      let latfloat0 := latDeg + latMin / 60
      let lngfloat0 := lngDeg + lngMin / 60
      let latfloat := if pyBytesEqStr ns "S" then -latfloat0 else latfloat0
      let lngfloat := if pyBytesEqStr ew "W" then -lngfloat0 else lngfloat0
      match pyTimestamp date utctime tz with
      | some ts =>
        match pyFloat alt, pyFloat speed with
        | some altF, some speedF =>
          .ok { lat := latfloat, lng := lngfloat, timestamp := ts,
                alt := altF, speed := speedF }
        | _, _ => .error .malformedField
      | none => .error .malformedField
    | _, _, _, _ => .error .malformedField
  | _ => .error .fieldCountMismatch

/-- `parse_gpsinfo` (`GPS.py` lines 30-39): reject unless the first line is
the echoed `AT+CGPSINFO` and the last line is `OK` (the source's
`not lines or lines[0] != b'AT+CGPSINFO' or lines[-1] != b'OK'`), then
decode the first line carrying the `+CGPSINFO: ` prefix; raise if there is
none. -/
def parse_gpsinfo (gpsinfo : String) (tz : ℚ) : Except ParseError GPSInfo :=
  let lines := splitLines gpsinfo
  if lines.head? = some "AT+CGPSINFO" ∧ lines.getLast? = some "OK" then
    match lines.find? (fun l => List.isPrefixOf "+CGPSINFO: ".data l.data) with
    | some l => parse_gpsinfo_line (String.mk (l.data.drop "+CGPSINFO: ".data.length)) tz
    | none => .error .missingData
  else .error .badFraming

/-! ## AT transport (`GPS.py` lines 68-85) -/

/-- One transport exchange, as the channel behaves during it: `waiting` is
what `comm.inWaiting()` reports after the settle sleep, and `readData` is
what `comm.read(comm.inWaiting())` then returns (the second `inWaiting`
call may report a different count; only the bytes actually read matter). -/
structure ChanStep where
  waiting : Nat
  readData : String
deriving DecidableEq, Repr

/-- `send_at_complex` (`GPS.py` lines 68-85).  The source returns the pair
`(1, answer)` or `(0, answer)` — the int is only ever tested for
truthiness, modelled as `Bool` — or, when `inWaiting()` was nonzero but
the walrus-assigned `comm.read(...)` came back empty, falls off the end of
the function and returns Python `None`, modelled as `none`.  The command
bytes are written to the channel and do not affect the result. -/
def send_at_complex (chan : ChanStep) (_command back : String) :
    Option (Bool × String) :=
  let serial_answer := ""
  if chan.waiting ≠ 0 then
    if chan.readData ≠ "" then
      if strContains chan.readData back = false then
        some (false, chan.readData)
      else
        some (true, chan.readData)
    else none
  else some (false, serial_answer)

/-! ## GPS session (`GPS.py` lines 88-106) -/

/-- A Python exception escaping `get_gps_position`: a `ValueError` raised
by the parser, or the `TypeError` raised when the tuple unpacking
`status, serial_answer = send_at_complex(...)` receives `None`. -/
inductive PyError where
  | valueError (e : ParseError)
  | typeError
deriving DecidableEq, Repr

/-- What a run of `get_gps_position` is observed to do: return a `GPSInfo`,
return Python `None`, or raise. -/
inductive SessionOutcome where
  | fix (g : GPSInfo)
  | pyNone
  | raised (e : PyError)
deriving DecidableEq, Repr

/-- `get_gps_position` (`GPS.py` lines 88-106), run against a scripted
channel: `chan k` is how the channel behaves during the k-th
`send_at_complex` call.  Returns the observed outcome together with the
list of AT commands sent, in order.

Transcription notes, to be checked against the source:
* the start command's result is discarded (`send_at_complex(comm,
  GPS_STANDALONE, b'OK', 1)` is a bare expression statement), so the
  session proceeds to the loop whatever `chan 0` does;
* every branch of the `while rec_null` body either returns or sets
  `rec_null = False`, after which the loop test fails and the function
  falls off the end returning `None`; the loop therefore runs at most one
  iteration, transcribed as straight-line code;
* in the `if status:` branch with `b',,,,,,'` in the answer the loop exits
  with no further command; in the `else` branch the stop command is sent
  (result discarded) and `None` is returned. -/
def get_gps_position (chan : Nat → ChanStep) (tz : ℚ) :
    SessionOutcome × List String :=
  let _startResult := send_at_complex (chan 0) GPS_STANDALONE "OK"
  match send_at_complex (chan 1) GPS_INFO "+CGPSINFO: " with
  | none => (.raised .typeError, [GPS_STANDALONE, GPS_INFO])
  | some (status, serial_answer) =>
    if status then
      if strContains serial_answer ",,,,,," then
        (.pyNone, [GPS_STANDALONE, GPS_INFO])
      else
        match parse_gpsinfo serial_answer tz with
        | .ok g => (.fix g, [GPS_STANDALONE, GPS_INFO])
        | .error e => (.raised (.valueError e), [GPS_STANDALONE, GPS_INFO])
    else
      let _stopResult := send_at_complex (chan 2) GPS_STOP "OK"
      (.pyNone, [GPS_STANDALONE, GPS_INFO, GPS_STOP])

/-! ## Verification of the specification claims

The arithmetic of `ℚ` must be unfolded during elaboration to evaluate the
parser on concrete transcripts; the kernel re-checks every proof with full
unfolding regardless. -/

section

set_option allowUnsafeReducibility true
attribute [local semireducible] Rat.add Rat.sub Rat.mul Rat.inv Rat.div Rat.ofScientific

/-- Claim C1: the decoded coordinate is negated exactly when the hemisphere
field is `S` (latitude) or `W` (longitude).  The code compares the `bytes`
hemisphere field with a `str` literal (`ns == 'S'`, `ew == 'W'`), which is
always `False` in Python 3, so the negation never happens: the southern and
western line decodes to exactly the same `GPSInfo` as the northern and
eastern one, with strictly positive latitude and longitude. -/
theorem south_west_hemisphere_not_negated :
    parse_gpsinfo_line
        "3110.123456,S,12130.654321,W,010124,235959.500000,12.3,0.5,0" 0 =
      parse_gpsinfo_line
        "3110.123456,N,12130.654321,E,010124,235959.500000,12.3,0.5,0" 0 ∧
    ∃ g : GPSInfo,
      parse_gpsinfo_line
          "3110.123456,S,12130.654321,W,010124,235959.500000,12.3,0.5,0" 0 =
        .ok g ∧ 0 < g.lat ∧ 0 < g.lng := by
  refine ⟨by decide,
    ⟨⟨29220679 / 937500, 2430218107 / 20000000, 3408307199 / 2, 123 / 10, 1 / 2⟩,
      by decide, by decide, by decide⟩⟩

/-- Claim C2: `decode_timestamp("010124", "235959.500000")` is the instant
2024-01-01T23:59:59.5 UTC, i.e. epoch seconds `1704153599.5 = 3408307199/2`
— but only on a host whose UTC offset is zero.  The code calls
`datetime.timestamp()` on a naive datetime, which CPython interprets in the
host local timezone: on a host at UTC offset +3600 s the same fields yield
`1704149999.5 = 3408299999/2`, a different instant, contradicting the
claimed UTC interpretation. -/
theorem timestamp_depends_on_host_offset :
    pyTimestamp "010124".data "235959.500000".data 0 = some (3408307199 / 2) ∧
    pyTimestamp "010124".data "235959.500000".data 3600 = some (3408299999 / 2) ∧
    (3408299999 / 2 : ℚ) ≠ 3408307199 / 2 :=
  ⟨by decide, by decide, by decide⟩

/-- Claim C3, counterexample: on the well-framed transcript whose data line
is `+CGPSINFO: ,,,,,,,,`, `parse_gpsinfo` does not produce a distinguished
empty outcome — it fails (the source raises `ValueError` from
`float(b'')`), here the `malformedField` parse error. -/
theorem parse_empty_fields_returns_error :
    parse_gpsinfo "AT+CGPSINFO\r\n+CGPSINFO: ,,,,,,,,\r\nOK" 0 =
      Except.error ParseError.malformedField := by decide

/-- Claim C3, amended: every well-framed transcript whose data line is
`+CGPSINFO: ,,,,,,,,` makes `parse_gpsinfo` fail with `malformedField`
(from `float` of an empty field); the "no fix yet" case is recognised not
by the parser but by the session, which tests the raw reply for `,,,,,,`
before parsing and returns `None` without error. -/
theorem empty_fix_error_in_parser_handled_in_session :
    (∀ (s : String) (tz : ℚ),
      (splitLines s).head? = some "AT+CGPSINFO" →
      (splitLines s).getLast? = some "OK" →
      (splitLines s).find? (fun l => List.isPrefixOf "+CGPSINFO: ".data l.data) =
        some "+CGPSINFO: ,,,,,,,," →
      parse_gpsinfo s tz = Except.error ParseError.malformedField) ∧
    (get_gps_position
        (fun _ => ChanStep.mk 1 "AT+CGPSINFO\r\n+CGPSINFO: ,,,,,,,,\r\nOK") 0).1 =
      SessionOutcome.pyNone := by
  constructor
  · intro s tz h1 h2 h3
    simp only [parse_gpsinfo]
    rw [if_pos ⟨h1, h2⟩, h3]
    rfl
  · decide

/-- Claim C3, witness for the amended theorem at a concrete transcript and
a nonzero host offset. -/
theorem empty_fix_error_in_parser_handled_in_session_witness :
    parse_gpsinfo "AT+CGPSINFO\r\n+CGPSINFO: ,,,,,,,,\r\nOK" (1 / 2) =
      Except.error ParseError.malformedField :=
  empty_fix_error_in_parser_handled_in_session.1 _ (1 / 2)
    (by decide) (by decide) (by decide)

/-- Claim C4, counterexample: against a channel that never produces bytes,
the start command's outcome is `(0, b'')` — not Ok — yet the session still
issues the GPS-info poll (the trace contains `AT+CGPSINFO`), contradicting
"if the start command's outcome is not Ok the session transitions to
Failed and never issues a GPS-info poll query". -/
theorem failed_start_still_polls :
    send_at_complex (ChanStep.mk 0 "") GPS_STANDALONE "OK" = some (false, "") ∧
    GPS_INFO ∈ (get_gps_position (fun _ => ChanStep.mk 0 "") 0).2 := by decide

/-- Claim C4, amended: the session sends the start command but discards its
outcome entirely; whatever the channel does during the start exchange, the
session always proceeds to issue a GPS-info poll. -/
theorem session_polls_regardless_of_start_outcome :
    ∀ (chan : Nat → ChanStep) (tz : ℚ), GPS_INFO ∈ (get_gps_position chan tz).2 := by
  intro chan tz
  simp only [get_gps_position]
  split
  · decide
  · split
    · split
      · decide
      · split
        · simp
        · simp
    · decide

/-- Claim C5, counterexample: two runs, one in the NotReady scenario (poll
transport Ok with the all-empty reply) and one in the Failure scenario
(poll transport not Ok), both return the same Python `None`: the two
outcomes are indistinguishable to the caller, contradicting "no two of
these outcomes are indistinguishable". -/
theorem notready_and_failure_both_return_none :
    send_at_complex
        (ChanStep.mk 1 "AT+CGPSINFO\r\n+CGPSINFO: ,,,,,,,,\r\nOK")
        GPS_INFO "+CGPSINFO: " =
      some (true, "AT+CGPSINFO\r\n+CGPSINFO: ,,,,,,,,\r\nOK") ∧
    strContains "AT+CGPSINFO\r\n+CGPSINFO: ,,,,,,,,\r\nOK" ",,,,,," = true ∧
    send_at_complex (ChanStep.mk 0 "") GPS_INFO "+CGPSINFO: " = some (false, "") ∧
    (get_gps_position
        (fun _ => ChanStep.mk 1 "AT+CGPSINFO\r\n+CGPSINFO: ,,,,,,,,\r\nOK") 0).1 =
      SessionOutcome.pyNone ∧
    (get_gps_position (fun _ => ChanStep.mk 0 "") 0).1 = SessionOutcome.pyNone := by
  decide

/-- Claim C5, amended: the session returns a `GPSInfo` only for a complete
parsed fix; both the NotReady condition (transport Ok carrying `,,,,,,`)
and the transport-failure condition collapse to the same return value
`None`, so the caller cannot distinguish them (parse failures additionally
escape as exceptions). -/
theorem nonfix_outcomes_collapse_to_none :
    ∀ (chan : Nat → ChanStep) (tz : ℚ) (ans : String),
      (send_at_complex (chan 1) GPS_INFO "+CGPSINFO: " = some (true, ans) ∧
          strContains ans ",,,,,," = true) ∨
        send_at_complex (chan 1) GPS_INFO "+CGPSINFO: " = some (false, ans) →
      (get_gps_position chan tz).1 = SessionOutcome.pyNone := by
  intro chan tz ans h
  simp only [get_gps_position]
  rcases h with ⟨h1, h2⟩ | h1
  · rw [h1]
    simp [h2]
  · rw [h1]
    simp

/-- Claim C5, witness for the amended theorem on the failure side. -/
theorem nonfix_outcomes_collapse_to_none_witness :
    (get_gps_position (fun _ => ChanStep.mk 0 "") (1 / 2)).1 =
      SessionOutcome.pyNone :=
  nonfix_outcomes_collapse_to_none _ (1 / 2) "" (Or.inr (by decide))

/-- Claim C6, counterexample: against a channel on which every poll reports
the all-empty fix, the session exits the polling loop after a single
GPS-info poll — the empty-fix condition is observed once, not twice — and
sends no stop command. -/
theorem empty_fix_exits_loop_after_single_poll :
    get_gps_position
        (fun _ => ChanStep.mk 1 "AT+CGPSINFO\r\n+CGPSINFO: ,,,,,,,,\r\nOK") 0 =
      (SessionOutcome.pyNone, [GPS_STANDALONE, GPS_INFO]) ∧
    List.count GPS_INFO
        (get_gps_position
          (fun _ => ChanStep.mk 1 "AT+CGPSINFO\r\n+CGPSINFO: ,,,,,,,,\r\nOK") 0).2 = 1 ∧
    GPS_STOP ∉
      (get_gps_position
        (fun _ => ChanStep.mk 1 "AT+CGPSINFO\r\n+CGPSINFO: ,,,,,,,,\r\nOK") 0).2 := by
  decide

/-- Claim C6, amended: when a poll's transport outcome is Ok and the reply
contains `,,,,,,`, the session exits the polling loop immediately — after
that single observation of the empty-fix condition — returning `None`, and
the trace shows one start command and one poll with no stop command. -/
theorem empty_fix_exits_without_stop_after_one_observation :
    ∀ (chan : Nat → ChanStep) (tz : ℚ) (ans : String),
      send_at_complex (chan 1) GPS_INFO "+CGPSINFO: " = some (true, ans) →
      strContains ans ",,,,,," = true →
      get_gps_position chan tz =
        (SessionOutcome.pyNone, [GPS_STANDALONE, GPS_INFO]) := by
  intro chan tz ans h1 h2
  simp only [get_gps_position]
  rw [h1]
  simp [h2]

/-- Claim C6, witness for the amended theorem. -/
theorem empty_fix_exits_without_stop_after_one_observation_witness :
    get_gps_position
        (fun _ => ChanStep.mk 1 "AT+CGPSINFO\r\n+CGPSINFO: ,,,,,,,,\r\nOK") 0 =
      (SessionOutcome.pyNone, [GPS_STANDALONE, GPS_INFO]) :=
  empty_fix_exits_without_stop_after_one_observation _ 0
    "AT+CGPSINFO\r\n+CGPSINFO: ,,,,,,,,\r\nOK" (by decide) (by decide)

/-- Claim C7: when a GPS-info poll's transport outcome is not Ok (the pair
carries a falsy status, covering both Unexpected and NoResponse), the
session sends the stop command and terminates with the failure return
`None`; the trace `[start, poll, stop]` shows exactly one status probe was
attempted. -/
theorem transport_error_sends_stop_and_fails :
    ∀ (chan : Nat → ChanStep) (tz : ℚ) (ans : String),
      send_at_complex (chan 1) GPS_INFO "+CGPSINFO: " = some (false, ans) →
      get_gps_position chan tz =
        (SessionOutcome.pyNone, [GPS_STANDALONE, GPS_INFO, GPS_STOP]) := by
  intro chan tz ans h1
  simp only [get_gps_position]
  rw [h1]
  simp

/-- Claim C7, witness: a channel that stays silent (NoResponse on every
exchange) drives the session to failure after exactly one probe, with the
stop command sent. -/
theorem transport_error_sends_stop_and_fails_witness :
    get_gps_position (fun _ => ChanStep.mk 0 "") 0 =
      (SessionOutcome.pyNone, [GPS_STANDALONE, GPS_INFO, GPS_STOP]) :=
  transport_error_sends_stop_and_fails _ 0 "" (by decide)

/-- Claim C8: `parse_gpsinfo` fails with the framing error whenever the
transcript's first line is not the echo `AT+CGPSINFO` or its last line is
not `OK` (an empty transcript has neither, and is covered). -/
theorem bad_framing_rejected :
    ∀ (s : String) (tz : ℚ),
      ¬ ((splitLines s).head? = some "AT+CGPSINFO" ∧
          (splitLines s).getLast? = some "OK") →
      parse_gpsinfo s tz = Except.error ParseError.badFraming := by
  intro s tz h
  simp only [parse_gpsinfo]
  rw [if_neg h]

/-- Claim C8, witness: a transcript missing the trailing `OK` line fails
with the framing error. -/
theorem bad_framing_rejected_witness :
    parse_gpsinfo
        "AT+CGPSINFO\r\n+CGPSINFO: 3110.123456,N,12130.654321,E,010124,235959.500000,12.3,0.5,0"
        0 = Except.error ParseError.badFraming :=
  bad_framing_rejected _ 0 (by decide)

/-- Claim C9: the example transcript parses, for every host UTC offset, to
a complete fix with latitude `31 + (10.123456)/60`, longitude
`121 + (30.654321)/60`, altitude `12.3` and speed `0.5`; the latitude and
longitude are within `10⁻⁶` of the claimed `31.168724` and `121.510905`. -/
theorem parse_full_fix_example :
    ∀ tz : ℚ,
      parse_gpsinfo
        "AT+CGPSINFO\r\n+CGPSINFO: 3110.123456,N,12130.654321,E,010124,235959.500000,12.3,0.5,0\r\nOK"
        tz =
      Except.ok
        { lat := 31 + (10123456 / 1000000 : ℚ) / 60,
          lng := 121 + (30654321 / 1000000 : ℚ) / 60,
          timestamp := 3408307199 / 2 - tz,
          alt := 123 / 10, speed := 1 / 2 } ∧
      |(31 + (10123456 / 1000000 : ℚ) / 60) - 31168724 / 1000000| < 1 / 1000000 ∧
      |(121 + (30654321 / 1000000 : ℚ) / 60) - 121510905 / 1000000| < 1 / 1000000 := by
  intro tz
  exact ⟨by rfl, by decide, by decide⟩

/-- Claim C10: when the channel reports bytes waiting after the settle
window but the subsequent read returns the empty byte string,
`send_at_complex` falls off the end of the function and returns Python
`None` instead of a `(status, transcript)` pair. -/
theorem send_at_complex_returns_pynone :
    ∀ (chan : ChanStep) (command back : String),
      chan.waiting ≠ 0 → chan.readData = "" →
      send_at_complex chan command back = none := by
  intro chan command back hw hr
  simp [send_at_complex, hw, hr]

/-- Claim C10, witness: one byte reported waiting, empty read. -/
theorem send_at_complex_returns_pynone_witness :
    send_at_complex (ChanStep.mk 1 "") GPS_INFO "+CGPSINFO: " = none :=
  send_at_complex_returns_pynone (ChanStep.mk 1 "") GPS_INFO "+CGPSINFO: "
    (by decide) rfl

end
